import Mathlib

/-!
Verification of the LocationIQ-Pro location data aggregation and scoring engine.

This file gives a shallow embedding, in Lean 4, of the parts of the backend
that the specification describes: the infrastructure analyzer (category
classifier, proximity curve, per-category aggregation), the Redis-backed
cache service (key generation, TTL round-trips, glob-based invalidation),
the IBGE statistical-data orchestrator, the Google Places gateway, and the
cache warm-up admin endpoint.  Python floats are modelled with exact
rational arithmetic; stateful Redis interaction is modelled with explicit
state passing; fallible calls are modelled with `Option`/`Except`.
-/

namespace LocationIQ

/-! ## Infrastructure analyzer: configuration

Embedding of `InfrastructureAnalyzer.__init__`
(`src/backend/app/services/infrastructure_analyzer.py`, lines 15-57).
The Python constructor only assigns the two dictionaries below; it contains
no conditional, no validation of the weights, and no raise statement.
-/

/-- The `infrastructure_weights` dictionary assigned in `__init__`. -/
def infrastructure_weights : List (String × ℚ) :=
  [("healthcare", 0.25), ("education", 0.20), ("transportation", 0.15),
   ("shopping", 0.15), ("services", 0.10), ("recreation", 0.10), ("dining", 0.05)]

/-- The `place_type_mapping` dictionary assigned in `__init__`. -/
def place_type_mapping : List (String × List String) :=
  [("healthcare", ["hospital", "pharmacy", "doctor", "dentist",
      "veterinary_care", "physiotherapist"]),
   ("education", ["school", "university", "library", "secondary_school",
      "primary_school", "kindergarten"]),
   ("transportation", ["bus_station", "subway_station", "train_station",
      "transit_station", "airport"]),
   ("shopping", ["supermarket", "grocery_or_supermarket", "shopping_mall",
      "clothing_store", "electronics_store", "hardware_store"]),
   ("services", ["bank", "post_office", "local_government_office",
      "police", "fire_station", "courthouse"]),
   ("recreation", ["park", "gym", "amusement_park", "zoo", "museum",
      "movie_theater", "night_club", "stadium"]),
   ("dining", ["restaurant", "meal_takeaway", "cafe", "bar",
      "bakery", "meal_delivery"])]

/-- Sum of the configured category weights. -/
def weights_sum : ℚ := (infrastructure_weights.map Prod.snd).sum

/-- State built by `InfrastructureAnalyzer.__init__`: just the two dictionaries. -/
structure AnalyzerState where
  weights : List (String × ℚ)
  mapping : List (String × List String)
deriving Repr, DecidableEq

/-- Embedding of `InfrastructureAnalyzer.__init__` as a fallible initializer.
The Python constructor body consists solely of the two dictionary
assignments; it has no validation branch and no raise statement, so the
embedding unconditionally returns the constructed state. -/
def analyzer_init : Except String AnalyzerState :=
  Except.ok { weights := infrastructure_weights, mapping := place_type_mapping }

/-! ## Category classifier

Embedding of `InfrastructureAnalyzer.categorize_place` (lines 80-94):
an outer loop over the categories in declaration order and an inner loop
over the input tags, returning the current category as soon as one of the
input tags occurs in that category's tag list.
-/

/-- Embedding of `categorize_place`. -/
def categorize_place (place_types : List String) : Option String :=
  place_type_mapping.findSome? fun ct =>
    (place_types.find? fun place_type => ct.2.contains place_type).map fun _ => ct.1

/-! ## Proximity curve

Embedding of `InfrastructureAnalyzer.calculate_proximity_score` (lines
96-132): per-category ideal distances with default 1000, then a four-branch
piecewise curve.
-/

/-- The `ideal_distances` dictionary of `calculate_proximity_score`. -/
def ideal_distances : List (String × ℚ) :=
  [("healthcare", 1000), ("education", 800), ("transportation", 500),
   ("shopping", 600), ("services", 1200), ("recreation", 1500), ("dining", 400)]

/-- Embedding of `ideal_distances.get(category, 1000)`. -/
def idealDistFor (category : String) : ℚ :=
  (ideal_distances.lookup category).getD 1000

/-- The piecewise curve of `calculate_proximity_score`, parametrized by the
ideal distance, exactly as the Python branch structure reads. -/
def proximityCurve (ideal_dist distance : ℚ) : ℚ :=
  if distance ≤ ideal_dist then 10
  else if distance ≤ ideal_dist * 2 then 10 - 5 * (distance - ideal_dist) / ideal_dist
  else if distance ≤ ideal_dist * 4 then 5 - 3 * (distance - ideal_dist * 2) / (ideal_dist * 2)
  else max 0 (2 - distance / (ideal_dist * 10))

/-- Embedding of `calculate_proximity_score`. -/
def calculate_proximity_score (distance : ℚ) (category : String) : ℚ :=
  proximityCurve (idealDistFor category) distance

/-- The far-branch formula the spec states for `distance > 4·ideal`,
written from the spec sentence: `max(0, 2 − (distance − 4·ideal)/(10·ideal))`. -/
def proximityFarSpec (ideal_dist distance : ℚ) : ℚ :=
  max 0 (2 - (distance - ideal_dist * 4) / (ideal_dist * 10))

/-- The curve rescaled to ideal distance 1: same branch structure with all
denominators constant.  Used as a proof device. -/
def curve1 (x : ℚ) : ℚ :=
  if x ≤ 1 then 10
  else if x ≤ 2 then 10 - 5 * (x - 1)
  else if x ≤ 4 then 5 - 3 * (x - 2) / 2
  else max 0 (2 - x / 10)

theorem idealDistFor_pos (c : String) : 0 < idealDistFor c := by
  simp only [idealDistFor, ideal_distances, List.lookup]
  repeat' split
  all_goals simp_all

theorem proximityCurve_eq_curve1 (i d : ℚ) (hi : 0 < i) :
    proximityCurve i d = curve1 (d / i) := by
  have hi' := hi.ne'
  have c1 : d ≤ i ↔ d / i ≤ 1 := (div_le_one hi).symm
  have c2 : d ≤ i * 2 ↔ d / i ≤ 2 := by
    rw [div_le_iff₀ hi]
    constructor <;> intro h <;> linarith
  have c3 : d ≤ i * 4 ↔ d / i ≤ 4 := by
    rw [div_le_iff₀ hi]
    constructor <;> intro h <;> linarith
  unfold proximityCurve curve1
  rcases le_or_lt d i with h1 | h1
  · rw [if_pos h1, if_pos (c1.mp h1)]
  · rw [if_neg (not_le.mpr h1), if_neg fun hc => absurd (c1.mpr hc) (not_le.mpr h1)]
    rcases le_or_lt d (i * 2) with h2 | h2
    · rw [if_pos h2, if_pos (c2.mp h2)]
      field_simp
    · rw [if_neg (not_le.mpr h2), if_neg fun hc => absurd (c2.mpr hc) (not_le.mpr h2)]
      rcases le_or_lt d (i * 4) with h3 | h3
      · rw [if_pos h3, if_pos (c3.mp h3)]
        field_simp
      · rw [if_neg (not_le.mpr h3), if_neg fun hc => absurd (c3.mpr hc) (not_le.mpr h3)]
        rw [div_div]

theorem curve1_nonneg (x : ℚ) : 0 ≤ curve1 x := by
  unfold curve1
  split_ifs with h1 h2 h3
  · norm_num
  · push_neg at h1
    linarith
  · push_neg at h1 h2
    linarith
  · exact le_max_left 0 _

theorem curve1_le_ten (x : ℚ) : curve1 x ≤ 10 := by
  unfold curve1
  split_ifs with h1 h2 h3
  · norm_num
  · push_neg at h1
    linarith
  · push_neg at h1 h2
    linarith
  · push_neg at h1 h2 h3
    exact max_le (by norm_num) (by linarith)

theorem curve1_anti {x y : ℚ} (h : x ≤ y) : curve1 y ≤ curve1 x := by
  unfold curve1
  split_ifs <;>
    first
      | linarith
      | (push_neg at *; linarith)
      | (push_neg at *; apply max_le <;> linarith)
      | (push_neg at *; refine max_le_max le_rfl (by linarith))

theorem calculate_proximity_score_eq (d : ℚ) (c : String) :
    calculate_proximity_score d c = curve1 (d / idealDistFor c) :=
  proximityCurve_eq_curve1 _ d (idealDistFor_pos c)

/-- C8: for every distance d ≥ 0 and every category (all ideal distances are
positive), the proximity score is 10 at d = 0, always lies in [0, 10], and is
non-increasing in the distance. -/
theorem C8_proximity_bounds_and_monotone (c : String) (d d₁ d₂ : ℚ)
    (hd : 0 ≤ d) (hd₁ : 0 ≤ d₁) (h12 : d₁ ≤ d₂) :
    calculate_proximity_score 0 c = 10 ∧
    0 ≤ calculate_proximity_score d c ∧
    calculate_proximity_score d c ≤ 10 ∧
    calculate_proximity_score d₂ c ≤ calculate_proximity_score d₁ c := by
  have hip := idealDistFor_pos c
  refine ⟨?_, ?_, ?_, ?_⟩
  · rw [calculate_proximity_score_eq, zero_div]
    unfold curve1
    norm_num
  · rw [calculate_proximity_score_eq]
    exact curve1_nonneg _
  · rw [calculate_proximity_score_eq]
    exact curve1_le_ten _
  · rw [calculate_proximity_score_eq, calculate_proximity_score_eq]
    exact curve1_anti (by gcongr)

/-- Witness for C8 at category healthcare with d = 1500, d₁ = 1000, d₂ = 3000. -/
theorem C8_proximity_witness :
    calculate_proximity_score 0 "healthcare" = 10 ∧
    0 ≤ calculate_proximity_score 1500 "healthcare" ∧
    calculate_proximity_score 1500 "healthcare" ≤ 10 ∧
    calculate_proximity_score 3000 "healthcare" ≤ calculate_proximity_score 1000 "healthcare" :=
  C8_proximity_bounds_and_monotone "healthcare" 1500 1000 3000
    (by norm_num) (by norm_num) (by norm_num)

/-- C2 is false: at distance 5000 for healthcare (ideal distance 1000, so
5000 > 4·ideal), the code returns `max(0, 2 − 5000/10000) = 3/2`, while the
spec formula `max(0, 2 − (5000 − 4000)/10000)` gives `19/10`. -/
theorem C2_far_branch_counterexample :
    idealDistFor "healthcare" = 1000 ∧
    idealDistFor "healthcare" * 4 < 5000 ∧
    calculate_proximity_score 5000 "healthcare" = 3 / 2 ∧
    proximityFarSpec 1000 5000 = 19 / 10 ∧
    calculate_proximity_score 5000 "healthcare" ≠ proximityFarSpec 1000 5000 := by
  norm_num [calculate_proximity_score, proximityCurve, proximityFarSpec,
    idealDistFor, ideal_distances, List.lookup]

/-- C2 amended: for every category and every distance d with d > 4·ideal, the
returned value is `max(0, 2 − d/(10·ideal))`; at d = 4·ideal the curve takes
value 2, while beyond 4·ideal it never exceeds 8/5, so at d = 4·ideal the
curve is discontinuous, jumping down by at least 2/5. -/
theorem C2_far_branch_amended (c : String) (d : ℚ)
    (h : idealDistFor c * 4 < d) :
    calculate_proximity_score d c = max 0 (2 - d / (idealDistFor c * 10)) ∧
    calculate_proximity_score (idealDistFor c * 4) c = 2 ∧
    calculate_proximity_score d c ≤ 8 / 5 := by
  have hip := idealDistFor_pos c
  set i := idealDistFor c with hi
  have h1 : ¬ d ≤ i := by push_neg; linarith
  have h2 : ¬ d ≤ i * 2 := by push_neg; linarith
  have h3 : ¬ d ≤ i * 4 := by push_neg; linarith
  have hfar : calculate_proximity_score d c = max 0 (2 - d / (i * 10)) := by
    unfold calculate_proximity_score proximityCurve
    rw [← hi, if_neg h1, if_neg h2, if_neg h3]
  refine ⟨hfar, ?_, ?_⟩
  · unfold calculate_proximity_score proximityCurve
    rw [← hi, if_neg (by push_neg; linarith), if_neg (by push_neg; linarith),
      if_pos le_rfl]
    field_simp
    ring
  · rw [hfar]
    have hq : 2 / 5 ≤ d / (i * 10) := by
      rw [le_div_iff₀ (by positivity)]
      linarith
    exact max_le (by norm_num) (by linarith)

/-- Witness for C2 amended at category dining (ideal distance 400) and d = 5000. -/
theorem C2_far_branch_amended_witness :
    calculate_proximity_score 5000 "dining"
        = max 0 (2 - 5000 / (idealDistFor "dining" * 10)) ∧
    calculate_proximity_score (idealDistFor "dining" * 4) "dining" = 2 ∧
    calculate_proximity_score 5000 "dining" ≤ 8 / 5 :=
  C2_far_branch_amended "dining" 5000 (by
    have h : idealDistFor "dining" = 400 := by
      simp [idealDistFor, ideal_distances, List.lookup]
    rw [h]
    norm_num)

/-! ## C3: weight configuration validation -/

/-- The initialization behaviour the spec describes, written from the spec
for comparison with `analyzer_init`: verify that the weights sum to 1.0
within tolerance 1e-6 and fail fast with a configuration error otherwise. -/
def analyzer_init_spec (weights : List (String × ℚ)) : Except String AnalyzerState :=
  if |(weights.map Prod.snd).sum - 1| ≤ 1 / 1000000 then
    Except.ok { weights := weights, mapping := place_type_mapping }
  else
    Except.error "ConfigurationError"

/-- C3 is false on the code: the spec-described initializer rejects a weight
configuration that does not sum to 1, but the code initializer is an
unconditional constructor with no validation branch and no error path, so no
configuration can make initialization fail (the code base contains no
ConfigurationError at all). -/
theorem C3_no_fail_fast_counterexample :
    (analyzer_init_spec [("healthcare", 3)]).isOk = false ∧
    analyzer_init.isOk = true ∧
    analyzer_init = Except.ok { weights := infrastructure_weights, mapping := place_type_mapping } := by
  refine ⟨?_, rfl, rfl⟩
  unfold analyzer_init_spec
  rw [if_neg (by norm_num)]
  rfl

/-- C3 amended: the seven configured category weights do sum to exactly 1.0
(hence within tolerance 1e-6), but initialization performs no verification:
it unconditionally succeeds, and no configuration error can be raised. -/
theorem C3_weights_sum_no_validation :
    weights_sum = 1 ∧
    |weights_sum - 1| ≤ 1 / 1000000 ∧
    analyzer_init = Except.ok { weights := infrastructure_weights, mapping := place_type_mapping } := by
  have h : weights_sum = 1 := by
    norm_num [weights_sum, infrastructure_weights]
  exact ⟨h, by rw [h]; norm_num, rfl⟩

/-! ## C10: the category classifier -/

/-- The double loop of `categorize_place`, over an arbitrary mapping list,
equals a first-match search over the categories with an intersection test. -/
theorem findSome_classifier_eq_find (tags : List String) (m : List (String × List String)) :
    (m.findSome? fun ct => (tags.find? fun place_type => ct.2.contains place_type).map fun _ => ct.1)
      = (m.find? fun ct => ct.2.any fun ty => tags.contains ty).map Prod.fst := by
  induction m with
  | nil => rfl
  | cons ct m ih =>
    rw [List.findSome?_cons, List.find?_cons]
    by_cases h : ∃ t ∈ tags, t ∈ ct.2
    · obtain ⟨t, ht, ht2⟩ := h
      have h1 : ((tags.find? fun place_type => ct.2.contains place_type)).isSome = true := by
        rw [List.find?_isSome]
        exact ⟨t, ht, by simpa using ht2⟩
      have h2 : (ct.2.any fun ty => tags.contains ty) = true := by
        rw [List.any_eq_true]
        exact ⟨t, ht2, by simpa using ht⟩
      obtain ⟨u, hu⟩ := Option.isSome_iff_exists.mp h1
      rw [hu, h2]
      rfl
    · push_neg at h
      have h1 : (tags.find? fun place_type => ct.2.contains place_type) = none := by
        rw [List.find?_eq_none]
        intro x hx
        simpa using h x hx
      have h2 : (ct.2.any fun ty => tags.contains ty) = false := by
        rw [Bool.eq_false_iff, Ne, List.any_eq_true]
        rintro ⟨ty, hty, hmem⟩
        exact h ty (by simpa using hmem) hty
      rw [h1, h2]
      exact ih

theorem find?_ext {α : Type} (p q : α → Bool) (l : List α)
    (h : ∀ a, p a = q a) : l.find? p = l.find? q := by
  induction l with
  | nil => rfl
  | cons a l ih => rw [List.find?_cons, List.find?_cons, h a, ih]

/-- C10: the classifier output depends only on the set of input tags (not
their order or multiplicity); it returns the first category in declaration
order whose recognized tag set meets the input tags; and it returns none
exactly when no input tag belongs to any category's tag set. -/
theorem C10_classifier_first_match (tags₁ tags₂ : List String)
    (hmem : ∀ t, t ∈ tags₁ ↔ t ∈ tags₂) :
    categorize_place tags₁ = categorize_place tags₂ ∧
    categorize_place tags₁
      = (place_type_mapping.find? fun ct => ct.2.any fun ty => tags₁.contains ty).map Prod.fst ∧
    (categorize_place tags₁ = none ↔
      ∀ t ∈ tags₁, ∀ ct ∈ place_type_mapping, t ∉ ct.2) := by
  have key : ∀ tags : List String, categorize_place tags
      = (place_type_mapping.find? fun ct => ct.2.any fun ty => tags.contains ty).map Prod.fst :=
    fun tags => findSome_classifier_eq_find tags place_type_mapping
  have hpred : ∀ ct : String × List String,
      (ct.2.any fun ty => tags₁.contains ty) = (ct.2.any fun ty => tags₂.contains ty) := by
    intro ct
    rw [Bool.eq_iff_iff, List.any_eq_true, List.any_eq_true]
    constructor <;> rintro ⟨ty, hty, hc⟩
    · exact ⟨ty, hty, by simpa [← hmem ty] using hc⟩
    · exact ⟨ty, hty, by simpa [hmem ty] using hc⟩
  refine ⟨?_, key tags₁, ?_⟩
  · rw [key tags₁, key tags₂, find?_ext _ _ place_type_mapping hpred]
  · rw [key tags₁]
    rw [Option.map_eq_none', List.find?_eq_none]
    constructor
    · intro h t ht ct hct hmem2
      have hthis := h ct hct
      rw [Bool.not_eq_true, Bool.eq_false_iff, Ne, List.any_eq_true] at hthis
      exact hthis ⟨t, hmem2, by simpa using ht⟩
    · intro h ct hct
      rw [Bool.not_eq_true, Bool.eq_false_iff, Ne, List.any_eq_true]
      rintro ⟨ty, hty, hc⟩
      exact h ty (by simpa using hc) ct hct hty

/-- Witness for C10 on concrete tag lists differing in order and multiplicity. -/
theorem C10_classifier_witness :
    categorize_place ["cafe", "hospital"] = categorize_place ["hospital", "cafe", "cafe"] ∧
    categorize_place ["cafe", "hospital"]
      = (place_type_mapping.find?
          fun ct => ct.2.any fun ty => (["cafe", "hospital"] : List String).contains ty).map Prod.fst ∧
    (categorize_place ["cafe", "hospital"] = none ↔
      ∀ t ∈ (["cafe", "hospital"] : List String), ∀ ct ∈ place_type_mapping, t ∉ ct.2) :=
  C10_classifier_first_match ["cafe", "hospital"] ["hospital", "cafe", "cafe"] (by
    intro t
    simp only [List.mem_cons, List.not_mem_nil, or_false]
    tauto)

/-! ## C1: per-category aggregation in `analyze_infrastructure`

Embedding of the per-category scoring block of
`InfrastructureAnalyzer.analyze_infrastructure` (lines 194-213): sort the
category's classified places ascending by distance (Python `sorted` is a
stable sort by the distance key), keep the first five as `top_places`,
average the proximity scores of those top five, add the availability bonus
`min(1, count/3) * 0.5`, and cap at 10.  An empty category scores 0.
-/

/-- A classified place as appended to `category_scores[category]`:
name, distance, proximity score, rating. -/
structure PlaceEntry where
  name : String
  distance : ℚ
  score : ℚ
  rating : ℚ
deriving Repr, DecidableEq

/-- Comparison by the `distance` key, as in `sorted(places, key=lambda x: x[%distance%])`. -/
def distLE (a b : PlaceEntry) : Prop := a.distance ≤ b.distance

instance : DecidableRel distLE := fun a b => inferInstanceAs (Decidable (a.distance ≤ b.distance))

instance : IsTotal PlaceEntry distLE := ⟨fun a b => le_total a.distance b.distance⟩

instance : IsTrans PlaceEntry distLE := ⟨fun _ _ _ => le_trans⟩

/-- Embedding of `sorted(places, key=lambda x: x['distance'])[:5]` (a stable
sort by the distance key, then the first five). -/
def top_places (places : List PlaceEntry) : List PlaceEntry :=
  (List.insertionSort distLE places).take 5

/-- Embedding of the per-category final score: average proximity score of the
top five closest places, plus `min(1.0, len(places)/3) * 0.5`, capped at 10;
0 for an empty category. -/
def category_final_score (places : List PlaceEntry) : ℚ :=
  if places = [] then 0
  else
    min 10 (((top_places places).map PlaceEntry.score).sum / ((top_places places).length : ℚ)
      + min 1 ((places.length : ℚ) / 3) * 0.5)

/-- The category base score the spec describes, written from the spec
sentence for comparison: the average proximity score of all points in the
category (not just the top five), plus the same bonus, capped at 10. -/
def category_score_spec_all (places : List PlaceEntry) : ℚ :=
  if places = [] then 0
  else
    min 10 ((places.map PlaceEntry.score).sum / (places.length : ℚ)
      + min 1 ((places.length : ℚ) / 3) * 0.5)

/-- Six classified healthcare places: five within the ideal distance
(proximity score 10) and one at 20000 m (proximity score 0). -/
def C1ex : List PlaceEntry :=
  [⟨"a", 100, 10, 0⟩, ⟨"b", 200, 10, 0⟩, ⟨"c", 300, 10, 0⟩,
   ⟨"d", 400, 10, 0⟩, ⟨"e", 500, 10, 0⟩, ⟨"f", 20000, 0, 0⟩]

/-- C1 is false: on a healthcare category with six classified points (five at
score 10, one at score 0), the code averages only the five closest and
returns 10, while the spec's average over all six points gives 53/6. -/
theorem C1_counterexample :
    category_final_score C1ex = 10 ∧
    category_score_spec_all C1ex = 53 / 6 ∧
    category_final_score C1ex ≠ category_score_spec_all C1ex := by
  have h1 : category_final_score C1ex = 10 := by
    rw [category_final_score, if_neg (by simp [C1ex])]
    norm_num [top_places, C1ex, List.insertionSort, List.orderedInsert, distLE]
  have h2 : category_score_spec_all C1ex = 53 / 6 := by
    rw [category_score_spec_all, if_neg (by simp [C1ex])]
    norm_num [C1ex]
  refine ⟨h1, h2, ?_⟩
  rw [h1, h2]
  norm_num

/-- C1 amended: within each category the classified points are sorted
ascending by distance and the five closest are kept as `top_places` (a
selection of minimal-distance points from the category), but the category's
base score is the average proximityScore of those top five points only (not
of all points in the category), plus the availability bonus, capped at 10. -/
theorem C1_category_scoring_amended (places : List PlaceEntry) (hne : places ≠ []) :
    List.Sorted distLE (top_places places) ∧
    (top_places places).length = min 5 places.length ∧
    (∀ a ∈ top_places places, ∀ b ∈ (List.insertionSort distLE places).drop 5,
      a.distance ≤ b.distance) ∧
    (List.insertionSort distLE places).Perm places ∧
    category_final_score places
      = min 10 (((top_places places).map PlaceEntry.score).sum
          / ((top_places places).length : ℚ) + min 1 ((places.length : ℚ) / 3) * 0.5) := by
  have hsorted : List.Sorted distLE (List.insertionSort distLE places) :=
    List.sorted_insertionSort distLE places
  refine ⟨?_, ?_, ?_, List.perm_insertionSort distLE places, ?_⟩
  · exact List.Pairwise.sublist (List.take_sublist 5 _) hsorted
  · rw [top_places, List.length_take, (List.perm_insertionSort distLE places).length_eq]
  · have hsplit := List.take_append_drop 5 (List.insertionSort distLE places)
    rw [List.Sorted, ← hsplit, List.pairwise_append] at hsorted
    exact fun a ha b hb => hsorted.2.2 a ha b hb
  · rw [category_final_score, if_neg hne]

/-- Witness for C1 amended, instantiated at the six-place healthcare list. -/
theorem C1_category_scoring_amended_witness :
    List.Sorted distLE (top_places C1ex) ∧
    (top_places C1ex).length = min 5 C1ex.length ∧
    (∀ a ∈ top_places C1ex, ∀ b ∈ (List.insertionSort distLE C1ex).drop 5,
      a.distance ≤ b.distance) ∧
    (List.insertionSort distLE C1ex).Perm C1ex ∧
    category_final_score C1ex
      = min 10 (((top_places C1ex).map PlaceEntry.score).sum
          / ((top_places C1ex).length : ℚ) + min 1 ((C1ex.length : ℚ) / 3) * 0.5) :=
  C1_category_scoring_amended C1ex (by simp [C1ex])

/-! ## Cache service: key generation and entity invalidation (C6)

Embedding of `CacheService._generate_key` (lines 65-70) and
`CacheService.clear_municipality_cache` (lines 163-181) of
`src/backend/app/services/cache_service.py`.  The municipality id is an
`int` interpolated into an f-string; the embedding takes its decimal
representation as a string.  Invalidation lists the Redis keys matching the
glob pattern `ibge:*:{municipality_id}*` and deletes them; the glob is
modelled by a matcher for patterns made of literal characters and `*`
wildcards, the only shapes the service uses.
-/

/-- Helper for the `*` wildcard: try matching the rest of the pattern after
consuming zero or more key characters. -/
def starLoop (f : List Char → Bool) : List Char → Bool
  | [] => f []
  | c :: ks => f (c :: ks) || starLoop f ks

/-- Glob matching for patterns of literal characters and `*` wildcards, as
Redis KEYS interprets the cache service's patterns. -/
def globMatch : List Char → List Char → Bool
  | [], ks => ks.isEmpty
  | p :: ps, ks =>
    if p = '*' then starLoop (globMatch ps) ks
    else
      match ks with
      | [] => false
      | c :: ks2 => p == c && globMatch ps ks2

/-- Glob matching on strings. -/
def globMatchS (pat key : String) : Bool := globMatch pat.toList key.toList

/-- Embedding of `_generate_key(prefix, municipality_id, additional)`:
`ibge:{prefix}:{municipality_id}`, plus `:{additional}` when `additional`
is non-empty.  (The `prefix` parameter is called `key_type` at every call
site; `idStr` is the decimal representation of the municipality id.) -/
def generate_key (key_type idStr additional : String) : String :=
  let key := "ibge:" ++ key_type ++ ":" ++ idStr
  if additional ≠ "" then key ++ ":" ++ additional else key

/-- The deletion pattern of `clear_municipality_cache`: `ibge:*:{id}*`. -/
def clear_pattern (idStr : String) : String := "ibge:*:" ++ idStr ++ "*"

/-- Embedding of `clear_municipality_cache`: delete every stored key
matching the pattern; return the number deleted and the remaining store. -/
def clear_municipality_cache (store : List String) (idStr : String) : Nat × List String :=
  ((store.filter fun k => globMatchS (clear_pattern idStr) k).length,
   store.filter fun k => ! globMatchS (clear_pattern idStr) k)

theorem starLoop_absorb (f : List Char → Bool) (s ks : List Char)
    (h : f ks = true) : starLoop f (s ++ ks) = true := by
  induction s with
  | nil =>
    cases ks with
    | nil => simpa [starLoop] using h
    | cons c ks2 => simp [starLoop, h]
  | cons c s ih => simp [starLoop, ih]

theorem globMatch_star_absorb (s ks : List Char) (ps : List Char)
    (h : globMatch ps ks = true) : globMatch ('*' :: ps) (s ++ ks) = true := by
  show starLoop (globMatch ps) (s ++ ks) = true
  exact starLoop_absorb _ s ks h

theorem globMatch_tail_star (ks : List Char) : globMatch ['*'] ks = true := by
  show starLoop (globMatch []) ks = true
  induction ks with
  | nil => rfl
  | cons c ks ih => simp [starLoop, ih]

theorem globMatch_lit (l : List Char) (hl : '*' ∉ l) (ps ks : List Char) :
    globMatch (l ++ ps) (l ++ ks) = globMatch ps ks := by
  induction l with
  | nil => rfl
  | cons c l ih =>
    have hc : c ≠ '*' := fun h => hl (h ▸ List.mem_cons_self c l)
    have hl2 : '*' ∉ l := fun h => hl (List.mem_cons_of_mem c h)
    simp only [List.cons_append]
    rw [globMatch, if_neg hc]
    simp [ih hl2]

/-- Every key generated for a municipality id (any namespace, any variant)
matches that id's deletion pattern. -/
theorem generate_key_matches (key_type idStr additional : String)
    (hid : '*' ∉ idStr.toList) :
    globMatchS (clear_pattern idStr) (generate_key key_type idStr additional) = true := by
  have hlit1 : ('*' : Char) ∉ (['i','b','g','e',':'] : List Char) := by decide
  have hlit2 : ('*' : Char) ∉ ':' :: idStr.toList := by
    intro h
    rcases List.mem_cons.mp h with h | h
    · exact absurd h (by decide)
    · exact hid h
  have hmid : ∀ tail : List Char,
      globMatch (':' :: idStr.toList ++ ['*']) (':' :: idStr.toList ++ tail) = true := by
    intro tail
    rw [show (':' :: idStr.toList ++ ['*'] : List Char)
        = (':' :: idStr.toList) ++ ['*'] by simp,
      show (':' :: idStr.toList ++ tail : List Char) = (':' :: idStr.toList) ++ tail by simp,
      globMatch_lit _ hlit2]
    exact globMatch_tail_star tail
  have hkey : ∀ tail : List Char,
      globMatch (['i','b','g','e',':'] ++ '*' :: (':' :: idStr.toList ++ ['*']))
        (['i','b','g','e',':'] ++ (key_type.toList ++ (':' :: idStr.toList ++ tail)))
          = true := by
    intro tail
    rw [globMatch_lit _ hlit1]
    exact globMatch_star_absorb key_type.toList _ _ (hmid tail)
  have hpat : (clear_pattern idStr).toList
      = ['i','b','g','e',':'] ++ '*' :: (':' :: idStr.toList ++ ['*']) := by
    simp [clear_pattern]
  unfold globMatchS
  rw [hpat]
  unfold generate_key
  by_cases hadd : additional ≠ ""
  · rw [if_pos hadd]
    have : ("ibge:" ++ key_type ++ ":" ++ idStr ++ ":" ++ additional).toList
        = ['i','b','g','e',':'] ++ (key_type.toList ++ (':' :: idStr.toList
            ++ (':' :: additional.toList))) := by
      simp
    rw [this]
    exact hkey _
  · rw [if_neg hadd]
    have : ("ibge:" ++ key_type ++ ":" ++ idStr).toList
        = ['i','b','g','e',':'] ++ (key_type.toList ++ (':' :: idStr.toList ++ [])) := by
      simp
    rw [this]
    exact hkey _

/-- C6 is false: clearing municipality 123 also deletes the key
`ibge:population:1234`, which belongs to municipality 1234 — the trailing
wildcard of `ibge:*:123*` over-matches ids extending 123.  All three stored
keys match and are deleted, leaving nothing. -/
theorem C6_invalidate_counterexample :
    globMatchS (clear_pattern "123") (generate_key "population" "1234" "") = true ∧
    clear_municipality_cache
        ["ibge:population:123", "ibge:area:123:2010", "ibge:population:1234"] "123"
      = (3, []) := by decide

/-- C6 amended: `clear_municipality_cache(id)` deletes exactly the keys
matching the glob `ibge:*:{id}*` and returns their count.  Every
namespace/variant key generated for that id matches and is deleted, and
every non-matching key is left in place — but keys of other entity ids can
also match the pattern (for example ids whose decimal representation
extends the cleared id) and are then deleted as well. -/
theorem C6_invalidate_amended (store : List String) (key_type idStr additional : String)
    (hid : '*' ∉ idStr.toList) :
    globMatchS (clear_pattern idStr) (generate_key key_type idStr additional) = true ∧
    (clear_municipality_cache store idStr).1
      = (store.filter fun k => globMatchS (clear_pattern idStr) k).length ∧
    (∀ k, globMatchS (clear_pattern idStr) k = true →
      k ∉ (clear_municipality_cache store idStr).2) ∧
    (∀ k ∈ store, globMatchS (clear_pattern idStr) k = false →
      k ∈ (clear_municipality_cache store idStr).2) := by
  refine ⟨generate_key_matches key_type idStr additional hid, rfl, ?_, ?_⟩
  · intro k hk hmem
    have := (List.mem_filter.mp hmem).2
    rw [hk] at this
    exact absurd this (by decide)
  · intro k hk hfalse
    exact List.mem_filter.mpr ⟨hk, by rw [hfalse]; rfl⟩

/-- Witness for C6 amended on a concrete store and id 123. -/
theorem C6_invalidate_amended_witness :
    globMatchS (clear_pattern "123") (generate_key "population" "123" "2024") = true ∧
    (clear_municipality_cache ["ibge:population:123", "ibge:search:sp"] "123").1
      = ((["ibge:population:123", "ibge:search:sp"] : List String).filter
          fun k => globMatchS (clear_pattern "123") k).length ∧
    (∀ k, globMatchS (clear_pattern "123") k = true →
      k ∉ (clear_municipality_cache ["ibge:population:123", "ibge:search:sp"] "123").2) ∧
    (∀ k ∈ (["ibge:population:123", "ibge:search:sp"] : List String),
      globMatchS (clear_pattern "123") k = false →
      k ∈ (clear_municipality_cache ["ibge:population:123", "ibge:search:sp"] "123").2) :=
  C6_invalidate_amended ["ibge:population:123", "ibge:search:sp"] "population" "123" "2024"
    (by decide)

/-! ## Cache service: TTL round-trip (C7)

Embedding of `CacheService.set` (lines 103-146) and `CacheService.get`
(lines 72-101).  The Redis backend is external to the repository; it is
modelled by its documented SETEX/GET semantics, which is also the spec's
cache-entry invariant: an entry stored at `now` with time-to-live `ttl`
is readable strictly before `now + ttl` and a read at or after
`now + ttl` (after the TTL has elapsed) is a miss.  JSON serialization is
the identity on the payload dictionary, since `set` serializes exactly
what `get` deserializes.
-/

/-- A payload dictionary (the JSON object stored in the cache), read through
first-match `lookup`. -/
abbrev Payload := List (String × String)

/-- Model of the Redis store: live entries (key, value, absolute expiry). -/
structure RedisState where
  entries : List (String × Payload × Nat)
deriving Repr, DecidableEq

/-- Redis `SETEX key ttl value` at time `now`: store with expiry `now + ttl`,
replacing any previous entry for the key. -/
def redis_setex (st : RedisState) (key : String) (ttl : Nat) (v : Payload)
    (now : Nat) : RedisState :=
  ⟨(key, v, now + ttl) :: st.entries.filter fun e => e.1 != key⟩

/-- Redis `GET key` at time `t`: the stored value while `t` is strictly
before the expiry; otherwise the entry has expired and the read misses. -/
def redis_get (st : RedisState) (key : String) (t : Nat) : Option Payload :=
  match st.entries.find? fun e => e.1 == key with
  | some e => if t < e.2.2 then some e.2.1 else none
  | none => none

/-- The `TTL_SETTINGS` dictionary of `CacheService.__init__`. -/
def TTL_SETTINGS : List (String × Nat) :=
  [("municipality_info", 24 * 60 * 60), ("population", 30 * 24 * 60 * 60),
   ("area", 365 * 24 * 60 * 60), ("density", 365 * 24 * 60 * 60),
   ("search_results", 7 * 24 * 60 * 60), ("complete_data", 24 * 60 * 60)]

/-- `settings.CACHE_TTL` from `app/core/config.py`. -/
def CACHE_TTL : Nat := 3600

/-- Embedding of `ttl = custom_ttl or TTL_SETTINGS.get(key_type, settings.CACHE_TTL)`:
Python `or` falls through on a falsy (zero or absent) custom TTL. -/
def effective_ttl (key_type : String) (custom_ttl : Option Nat) : Nat :=
  match custom_ttl with
  | some c => if c ≠ 0 then c else (TTL_SETTINGS.lookup key_type).getD CACHE_TTL
  | none => (TTL_SETTINGS.lookup key_type).getD CACHE_TTL

/-- The dictionary `{**data, "_cached_at": now, "_cache_ttl": ttl}` built by
`set`: the two metadata keys shadow any equally named key of `data`. -/
def with_cache_metadata (data : Payload) (now ttl : Nat) : Payload :=
  ("_cached_at", toString now) :: ("_cache_ttl", toString ttl) :: data

/-- Embedding of `CacheService.set`: no-op returning `False` when the cache
is disabled; otherwise SETEX the metadata-enriched payload under the
generated key with the effective TTL and return `True`. -/
def cache_set (enabled : Bool) (st : RedisState) (key_type idStr : String)
    (data : Payload) (additional : String) (custom_ttl : Option Nat)
    (now : Nat) : Bool × RedisState :=
  if enabled then
    (true,
     redis_setex st (generate_key key_type idStr additional)
       (effective_ttl key_type custom_ttl)
       (with_cache_metadata data now (effective_ttl key_type custom_ttl)) now)
  else (false, st)

/-- Embedding of `CacheService.get`: `None` when the cache is disabled;
otherwise GET under the generated key (the serialized JSON of a stored
dictionary is never the empty string, so the truthiness test on the cached
string succeeds exactly on a GET hit). -/
def cache_get (enabled : Bool) (st : RedisState) (key_type idStr additional : String)
    (t : Nat) : Option Payload :=
  if enabled then redis_get st (generate_key key_type idStr additional) t
  else none

/-- C7: with the cache enabled, a `set` immediately followed by a `get` under
the same namespace, id and variant returns the stored payload as long as the
TTL has not elapsed (the payload is equivalent to the one stored: every
non-metadata key reads back unchanged), and a `get` at or after
`cachedAt + ttl` is a miss. -/
theorem C7_cache_roundtrip (st : RedisState) (key_type idStr additional : String)
    (data : Payload) (custom_ttl : Option Nat) (now t₁ t₂ : Nat)
    (h1 : t₁ < now + effective_ttl key_type custom_ttl)
    (h2 : now + effective_ttl key_type custom_ttl ≤ t₂) :
    (cache_set true st key_type idStr data additional custom_ttl now).1 = true ∧
    cache_get true (cache_set true st key_type idStr data additional custom_ttl now).2
        key_type idStr additional t₁
      = some (with_cache_metadata data now (effective_ttl key_type custom_ttl)) ∧
    (∀ k, (k == "_cached_at") = false → (k == "_cache_ttl") = false →
      (with_cache_metadata data now (effective_ttl key_type custom_ttl)).lookup k
        = data.lookup k) ∧
    cache_get true (cache_set true st key_type idStr data additional custom_ttl now).2
        key_type idStr additional t₂ = none := by
  refine ⟨rfl, ?_, ?_, ?_⟩
  · simp only [cache_set, cache_get, redis_setex, redis_get, if_pos]
    rw [List.find?_cons_of_pos _ (by simp)]
    simp only
    rw [if_pos h1]
  · intro k hk1 hk2
    simp [with_cache_metadata, List.lookup, hk1, hk2]
  · simp only [cache_set, cache_get, redis_setex, redis_get, if_pos]
    rw [List.find?_cons_of_pos _ (by simp)]
    simp only
    rw [if_neg (by omega)]

/-- Witness for C7: store a population payload for id 123 at time 0; read it
back at t = 10 (inside the 30-day TTL) and miss at t = 2592000. -/
theorem C7_cache_roundtrip_witness :
    (cache_set true ⟨[]⟩ "population" "123" [("population", "50000")] "" none 0).1 = true ∧
    cache_get true (cache_set true ⟨[]⟩ "population" "123" [("population", "50000")] "" none 0).2
        "population" "123" "" 10
      = some (with_cache_metadata [("population", "50000")] 0
          (effective_ttl "population" none)) ∧
    (∀ k, (k == "_cached_at") = false → (k == "_cache_ttl") = false →
      (with_cache_metadata [("population", "50000")] 0
          (effective_ttl "population" none)).lookup k
        = ([("population", "50000")] : Payload).lookup k) ∧
    cache_get true (cache_set true ⟨[]⟩ "population" "123" [("population", "50000")] "" none 0).2
        "population" "123" "" 2592000 = none :=
  C7_cache_roundtrip ⟨[]⟩ "population" "123" "" [("population", "50000")] none 0 10 2592000
    (by decide) (by decide)

/-! ## Admin endpoint: cache warm-up (C9)

Embedding of the `warm_up_cache` endpoint
(`src/backend/app/api/api_v1/endpoints/admin.py`, lines 57-92): iterate over
`municipality_ids[:50]`; a data load that returns normally increments
`processed` and `cached`, a raising load increments `errors`; ids beyond the
first 50 are never visited.  `fetch_ok id` tells whether the awaited
`get_complete_municipality_data(id)` call returns without raising.  The
completion message interpolates the length of the full input list.
-/

/-- The `stats` dictionary of the warm-up endpoint. -/
structure WarmUpStats where
  processed : Nat
  cached : Nat
  errors : Nat
deriving Repr, DecidableEq

/-- The response dictionary of the warm-up endpoint. -/
structure WarmUpResponse where
  status : String
  statistics : WarmUpStats
  message : String
deriving Repr, DecidableEq

/-- One iteration of the warm-up loop body. -/
def warm_up_step (fetch_ok : Int → Bool) (s : WarmUpStats) (id : Int) : WarmUpStats :=
  if fetch_ok id then { s with processed := s.processed + 1, cached := s.cached + 1 }
  else { s with errors := s.errors + 1 }

/-- Embedding of the `warm_up_cache` endpoint. -/
def warm_up_cache (municipality_ids : List Int) (fetch_ok : Int → Bool) : WarmUpResponse :=
  { status := "completed"
    statistics := (municipality_ids.take 50).foldl (warm_up_step fetch_ok) ⟨0, 0, 0⟩
    message := "Warm-up concluído para " ++ toString municipality_ids.length ++ " municípios" }

theorem warm_up_foldl_processed (fetch_ok : Int → Bool) (l : List Int) (s : WarmUpStats) :
    (l.foldl (warm_up_step fetch_ok) s).processed
      = s.processed + (l.filter fetch_ok).length := by
  induction l generalizing s with
  | nil => simp
  | cons a l ih =>
    rw [List.foldl_cons, ih]
    by_cases h : fetch_ok a <;> simp [warm_up_step, h] <;> omega

theorem warm_up_foldl_cached (fetch_ok : Int → Bool) (l : List Int) (s : WarmUpStats) :
    (l.foldl (warm_up_step fetch_ok) s).cached
      = s.cached + (l.filter fetch_ok).length := by
  induction l generalizing s with
  | nil => simp
  | cons a l ih =>
    rw [List.foldl_cons, ih]
    by_cases h : fetch_ok a <;> simp [warm_up_step, h] <;> omega

theorem warm_up_foldl_errors (fetch_ok : Int → Bool) (l : List Int) (s : WarmUpStats) :
    (l.foldl (warm_up_step fetch_ok) s).errors
      = s.errors + (l.filter fun i => ! fetch_ok i).length := by
  induction l generalizing s with
  | nil => simp
  | cons a l ih =>
    rw [List.foldl_cons, ih]
    by_cases h : fetch_ok a <;> simp [warm_up_step, h] <;> omega

/-- C9 is false: a warm-up request with 75 ids (all loading successfully)
processes only the first 50, but the remainder is not reported as skipped:
the result is exactly `completed / {processed 50, cached 50, errors 0}` with
a message quoting all 75 ids, and the skipped count 25 appears in no
statistics field. -/
theorem C9_warmup_counterexample :
    warm_up_cache ((List.range 75).map Int.ofNat) (fun _ => true)
      = { status := "completed", statistics := ⟨50, 50, 0⟩,
          message := "Warm-up concluído para 75 municípios" } ∧
    (warm_up_cache ((List.range 75).map Int.ofNat) (fun _ => true)).statistics.processed ≠ 25 ∧
    (warm_up_cache ((List.range 75).map Int.ofNat) (fun _ => true)).statistics.cached ≠ 25 ∧
    (warm_up_cache ((List.range 75).map Int.ofNat) (fun _ => true)).statistics.errors ≠ 25 := by
  refine ⟨?_, by decide, by decide, by decide⟩
  decide

/-- C9 amended: only the first 50 ids are processed — the statistics are
those of the truncated list, `processed` and `cached` count the successful
loads among the first 50, and `errors` counts the raising loads among the
first 50 — while the ids beyond the first 50 are silently ignored: they are
counted neither as processed nor as errors, no field of the result reports
them as skipped, and the completion message quotes the full input count. -/
theorem C9_warmup_amended (ids : List Int) (fetch_ok : Int → Bool) :
    (warm_up_cache ids fetch_ok).statistics
      = (warm_up_cache (ids.take 50) fetch_ok).statistics ∧
    (warm_up_cache ids fetch_ok).statistics.processed
      = ((ids.take 50).filter fetch_ok).length ∧
    (warm_up_cache ids fetch_ok).statistics.cached
      = ((ids.take 50).filter fetch_ok).length ∧
    (warm_up_cache ids fetch_ok).statistics.errors
      = ((ids.take 50).filter fun i => ! fetch_ok i).length ∧
    (warm_up_cache ids fetch_ok).status = "completed" ∧
    (warm_up_cache ids fetch_ok).message
      = "Warm-up concluído para " ++ toString ids.length ++ " municípios" := by
  refine ⟨?_, ?_, ?_, ?_, rfl, rfl⟩
  · show (ids.take 50).foldl (warm_up_step fetch_ok) ⟨0, 0, 0⟩
      = ((ids.take 50).take 50).foldl (warm_up_step fetch_ok) ⟨0, 0, 0⟩
    rw [List.take_take]
    simp
  · show ((ids.take 50).foldl (warm_up_step fetch_ok) ⟨0, 0, 0⟩).processed = _
    rw [warm_up_foldl_processed]
    simp
  · show ((ids.take 50).foldl (warm_up_step fetch_ok) ⟨0, 0, 0⟩).cached = _
    rw [warm_up_foldl_cached]
    simp
  · show ((ids.take 50).foldl (warm_up_step fetch_ok) ⟨0, 0, 0⟩).errors = _
    rw [warm_up_foldl_errors]
    simp

/-! ## IBGE orchestrator: composite municipality data (C4)

Embedding of `IBGEService.get_complete_municipality_data` (lines 366-415 of
`src/backend/app/services/ibge_service.py`).  The five sub-fetches run under
`asyncio.gather(..., return_exceptions=True)`; each task outcome is either a
raised exception (`Except.error`), a `None` return (the sub-fetches catch
their own HTTP errors and return `None`), or data.  The merge turns every
exception into a `None`/`{}` field and unconditionally builds the composite
record — the outer `except` can only fire if the merge itself raised, which
it cannot.
-/

/-- The composite record built by `get_complete_municipality_data`. -/
structure CompleteMunicipalityData where
  municipality_id : Int
  basic_info : Option String
  population : Option String
  area : Option String
  density : Option String
  economic_indicators : List (String × String)
  last_updated : String
  data_sources : List String
deriving Repr, DecidableEq

/-- Embedding of `x if not isinstance(x, Exception) else None`. -/
def flatten_result (r : Except String (Option String)) : Option String :=
  match r with
  | .ok v => v
  | .error _ => none

/-- Embedding of `get_complete_municipality_data`, parametrized by the five
gathered task outcomes. -/
def get_complete_municipality_data (id : Int)
    (basicR popR areaR densR : Except String (Option String))
    (econR : Except String (List (String × String))) : CompleteMunicipalityData :=
  { municipality_id := id
    basic_info := flatten_result basicR
    population := flatten_result popR
    area := flatten_result areaR
    density := flatten_result densR
    economic_indicators := match econR with | .ok v => v | .error _ => []
    last_updated := "2024-07-03"
    data_sources := ["IBGE - Localidades", "IBGE - Estimativas de População",
      "IBGE - Censo Demográfico 2010"] }

/-- The statistical record the spec describes, with a per-field error map. -/
structure StatisticalRecordSpec where
  entityId : Int
  basicInfo : Option String
  populationFact : Option String
  areaFact : Option String
  densityFact : Option String
  sourceErrors : List (String × String)
deriving Repr, DecidableEq

/-- The orchestration behaviour the spec describes, written from the spec
for comparison with `get_complete_municipality_data`: sub-fetch failures are
captured as absent fields with a recorded per-field error, and the
orchestrator returns a single aggregate failure exactly when all sub-fetches
fail. -/
def merge_spec (id : Int)
    (basicR popR areaR densR : Except String (Option String)) :
    Except String StatisticalRecordSpec :=
  if basicR.isOk = false ∧ popR.isOk = false ∧ areaR.isOk = false ∧ densR.isOk = false then
    Except.error "all sub-fetches failed"
  else
    Except.ok
      { entityId := id
        basicInfo := flatten_result basicR
        populationFact := flatten_result popR
        areaFact := flatten_result areaR
        densityFact := flatten_result densR
        sourceErrors :=
          (match basicR with | .error e => [("basic_info", e)] | .ok _ => [])
          ++ (match popR with | .error e => [("population", e)] | .ok _ => [])
          ++ (match areaR with | .error e => [("area", e)] | .ok _ => [])
          ++ (match densR with | .error e => [("density", e)] | .ok _ => []) }

/-- C4 is false on the code in two places.  When all sub-fetches fail, the
spec orchestrator returns an aggregate failure, but the code returns a
normal composite record with every data field `None`.  And when only the
population fetch times out, the code record carries no recorded error for
the field — its full concrete value contains nothing but the `None`
population and the intact fields, while the spec record carries
`("population", "timeout")` in its error map. -/
theorem C4_counterexample :
    get_complete_municipality_data 3304524
        (Except.error "timeout") (Except.error "timeout") (Except.error "timeout")
        (Except.error "timeout") (Except.error "timeout")
      = { municipality_id := 3304524, basic_info := none, population := none,
          area := none, density := none, economic_indicators := [],
          last_updated := "2024-07-03",
          data_sources := ["IBGE - Localidades", "IBGE - Estimativas de População",
            "IBGE - Censo Demográfico 2010"] } ∧
    merge_spec 3304524 (Except.error "timeout") (Except.error "timeout")
        (Except.error "timeout") (Except.error "timeout")
      = Except.error "all sub-fetches failed" ∧
    get_complete_municipality_data 3304524
        (Except.ok (some "info")) (Except.error "timeout") (Except.ok (some "420.0"))
        (Except.ok (some "230.5")) (Except.ok [])
      = { municipality_id := 3304524, basic_info := some "info", population := none,
          area := some "420.0", density := some "230.5", economic_indicators := [],
          last_updated := "2024-07-03",
          data_sources := ["IBGE - Localidades", "IBGE - Estimativas de População",
            "IBGE - Censo Demográfico 2010"] } ∧
    merge_spec 3304524 (Except.ok (some "info")) (Except.error "timeout")
        (Except.ok (some "420.0")) (Except.ok (some "230.5"))
      = Except.ok
          { entityId := 3304524, basicInfo := some "info", populationFact := none,
            areaFact := some "420.0", densityFact := some "230.5",
            sourceErrors := [("population", "timeout")] } := by
  refine ⟨rfl, ?_, rfl, ?_⟩
  · unfold merge_spec
    rw [if_pos ⟨rfl, rfl, rfl, rfl⟩]
  · unfold merge_spec
    rw [if_neg ?_]
    · rfl
    · rintro ⟨h1, -⟩
      exact absurd h1 (by simp [Except.isOk, Except.toBool])

/-- C4 amended: each sub-fetch may fail without aborting the request — a
failed or timed-out population fetch yields a composite record with the
population field `None` and the successfully fetched area and density fields
intact, and each field of the composite depends only on its own sub-fetch
outcome; the failure is only logged, not recorded in the record; and the
request never returns an aggregate failure from sub-fetch failures: even
when every sub-fetch fails, a normal composite record with all data fields
`None` is produced. -/
theorem C4_degraded_merge (id : Int) (e a dd : String)
    (b : Except String (Option String))
    (ec : Except String (List (String × String))) :
    (get_complete_municipality_data id b (Except.error e) (Except.ok (some a))
        (Except.ok (some dd)) ec).population = none ∧
    (get_complete_municipality_data id b (Except.error e) (Except.ok (some a))
        (Except.ok (some dd)) ec).area = some a ∧
    (get_complete_municipality_data id b (Except.error e) (Except.ok (some a))
        (Except.ok (some dd)) ec).density = some dd ∧
    (∀ b₁ b₂ ar₁ ar₂ dn₁ dn₂ ec₁ ec₂ p,
      (get_complete_municipality_data id b₁ p ar₁ dn₁ ec₁).population
        = (get_complete_municipality_data id b₂ p ar₂ dn₂ ec₂).population) ∧
    (∀ e₁ e₂ e₃ e₄ e₅, get_complete_municipality_data id (Except.error e₁)
        (Except.error e₂) (Except.error e₃) (Except.error e₄) (Except.error e₅)
      = { municipality_id := id, basic_info := none, population := none,
          area := none, density := none, economic_indicators := [],
          last_updated := "2024-07-03",
          data_sources := ["IBGE - Localidades", "IBGE - Estimativas de População",
            "IBGE - Censo Demográfico 2010"] }) :=
  ⟨rfl, rfl, rfl, fun _ _ _ _ _ _ _ _ _ => rfl, fun _ _ _ _ _ => rfl⟩

/-! ## Google Places gateway (C5)

Embedding of `GooglePlacesService.geocode_address` (lines 61-101) and
`GooglePlacesService.get_nearby_places` (lines 197-267) of
`src/backend/app/services/google_places.py`.  A JSON-like value type models
the Python dictionaries; the provider interaction of `_make_request` (with
the key present) is a parameter that is either a parsed response body or a
raised `HTTPException` (non-200 status or network error), which the callers
catch and turn into `None`/`[]`.
-/

/-- JSON-like values for the Python dictionaries handled by the gateway. -/
inductive PyVal where
  | str (s : String)
  | num (q : ℚ)
  | arr (l : List PyVal)
  | dict (d : List (String × PyVal))

/-- A parsed Google API response body: `status` plus `results`. -/
structure GoogleResponse where
  status : String
  results : List PyVal

/-- The hardcoded dictionary `geocode_address` returns when no API key is
configured (lines 72-84). -/
def mock_geocode_result (address : String) : PyVal :=
  .dict [("place_id", .str "mock_place_id"),
    ("formatted_address", .str ("Mock result for: " ++ address)),
    ("geometry", .dict [("location",
        .dict [("lat", .num (-23.5505)), ("lng", .num (-46.6333))])]),
    ("address_components", .arr [
      .dict [("long_name", .str "São Paulo"), ("types", .arr [.str "locality"])],
      .dict [("long_name", .str "SP"), ("types", .arr [.str "administrative_area_level_1"])],
      .dict [("long_name", .str "Brazil"), ("types", .arr [.str "country"])]])]

/-- The hardcoded mock places `get_nearby_places` builds when no API key is
configured (lines 219-241). -/
def mock_nearby_places (lat lng : ℚ) : List PyVal :=
  [.dict [("place_id", .str "mock_hospital_1"), ("name", .str "Hospital Mock"),
     ("types", .arr [.str "hospital", .str "health"]),
     ("geometry", .dict [("location",
         .dict [("lat", .num (lat + 0.001)), ("lng", .num (lng + 0.001))])]),
     ("rating", .num 4.2), ("vicinity", .str "Rua Mock, 123")],
   .dict [("place_id", .str "mock_school_1"), ("name", .str "Escola Mock"),
     ("types", .arr [.str "school", .str "education"]),
     ("geometry", .dict [("location",
         .dict [("lat", .num (lat - 0.001)), ("lng", .num (lng - 0.001))])]),
     ("rating", .num 4.5), ("vicinity", .str "Avenida Mock, 456")]]

/-- The `types` tag list of a place dictionary, for the mock filter
`[p for p in mock_places if place_type in p["types"]]`. -/
def place_types_of (p : PyVal) : List String :=
  match p with
  | .dict d =>
    match d.lookup "types" with
    | some (.arr l) => l.filterMap fun v => match v with | .str s => some s | _ => none
    | _ => []
  | _ => []

/-- Embedding of `geocode_address`: mock dictionary when no API key;
otherwise first result on an OK status with non-empty results, `None` on any
other status, and `None` on a caught HTTPException. -/
def geocode_address (api_key : Option String) (address : String)
    (provider : Except String GoogleResponse) : Option PyVal :=
  match api_key with
  | none => some (mock_geocode_result address)
  | some _ =>
    match provider with
    | .error _ => none
    | .ok r => if r.status == "OK" && !r.results.isEmpty then r.results.head? else none

/-- Embedding of `get_nearby_places`: mock places (optionally filtered by
`place_type`) when no API key; otherwise the results on an OK status, `[]`
on any other status, and `[]` on a caught HTTPException. -/
def get_nearby_places (api_key : Option String) (lat lng : ℚ)
    (place_type : Option String) (provider : Except String GoogleResponse) : List PyVal :=
  match api_key with
  | none =>
    match place_type with
    | some pt => (mock_nearby_places lat lng).filter fun p => (place_types_of p).contains pt
    | none => mock_nearby_places lat lng
  | some _ =>
    match provider with
    | .error _ => []
    | .ok r => if r.status == "OK" then r.results else []

/-- C5 is false: with missing credentials the adapters do not return an
empty or `None` "unavailable" result — they fabricate data.  With no API
key, `geocode_address` returns the hardcoded mock dictionary (not `None`)
and `get_nearby_places` returns the two hardcoded mock places (not `[]`),
regardless of the provider. -/
theorem C5_mock_fallback_counterexample :
    geocode_address none "Av. Paulista, 1000" (Except.error "unused")
      = some (mock_geocode_result "Av. Paulista, 1000") ∧
    (geocode_address none "Av. Paulista, 1000" (Except.error "unused")).isSome = true ∧
    get_nearby_places none (-23.5505) (-46.6333) none (Except.error "unused")
      = mock_nearby_places (-23.5505) (-46.6333) ∧
    (get_nearby_places none (-23.5505) (-46.6333) none (Except.error "unused")).length = 2 :=
  ⟨rfl, rfl, rfl, rfl⟩

/-- C5 amended: on a provider error (HTTP error or network failure, the
caught `HTTPException`) or a non-OK provider status, both adapters return
the empty/none "no data" result without raising; but on missing credentials
they do not return an unavailable result — they return hardcoded mock data
instead. -/
theorem C5_unavailable_amended (k address e s : String) (lat lng : ℚ)
    (pt : Option String) (rs : List PyVal) (hs : s ≠ "OK") :
    geocode_address (some k) address (Except.error e) = none ∧
    get_nearby_places (some k) lat lng pt (Except.error e) = [] ∧
    geocode_address (some k) address (Except.ok ⟨s, rs⟩) = none ∧
    get_nearby_places (some k) lat lng pt (Except.ok ⟨s, rs⟩) = [] ∧
    geocode_address none address (Except.error e) = some (mock_geocode_result address) := by
  have hb : (s == "OK") = false := by
    simpa using hs
  refine ⟨rfl, rfl, ?_, ?_, rfl⟩
  · simp [geocode_address, hb]
  · simp [get_nearby_places, hb]

/-- Witness for C5 amended at status ZERO_RESULTS. -/
theorem C5_unavailable_amended_witness :
    geocode_address (some "key") "Rua X" (Except.error "HTTP 500") = none ∧
    get_nearby_places (some "key") 1 2 none (Except.error "HTTP 500") = [] ∧
    geocode_address (some "key") "Rua X" (Except.ok ⟨"ZERO_RESULTS", []⟩) = none ∧
    get_nearby_places (some "key") 1 2 none (Except.ok ⟨"ZERO_RESULTS", []⟩) = [] ∧
    geocode_address none "Rua X" (Except.error "HTTP 500")
      = some (mock_geocode_result "Rua X") :=
  C5_unavailable_amended "key" "Rua X" "HTTP 500" "ZERO_RESULTS" 1 2 none []
    (by decide)

end LocationIQ
